import Mathlib

/-!
Shallow embedding of the bareinfra virtual-node provider
(`src/bareinfra.go`).

The provider keeps an in-memory slice of pod records (`Provider.pods`);
all lifecycle operations are linear scans over it.  Go's
`(value, error)` return style is modelled as a pair of `Option`s
(`none` for a nil pointer / nil error), Go string-keyed maps as
association lists with first-match lookup returning the zero value `""`
on a missing key, and `metav1.Now()` as an abstract `Nat` timestamp
passed into the operation.
-/

namespace Bareinfra

/-- A container in a pod's desired spec (only the name is used by this
provider). Mirrors the `Name` field of `v1.Container`. -/
structure Container where
  name : String
  deriving DecidableEq, Repr

/-- Desired pod spec: the declared container list (`v1.PodSpec.Containers`). -/
structure PodSpec where
  containers : List Container
  deriving DecidableEq, Repr

/-- `v1.ContainerState`: `running = some t` models a non-nil
`Running` pointer with `StartedAt = t`; `none` is the zero value. -/
structure ContainerState where
  running : Option Nat
  deriving DecidableEq, Repr

/-- `v1.ContainerStatus` as synthesized by `CreatePod`. -/
structure ContainerStatus where
  name : String
  state : ContainerState
  ready : Bool
  restartCount : Nat
  deriving DecidableEq, Repr

/-- `v1.PodCondition`: condition type and status, both strings in the
Kubernetes API (`v1.PodReady = "Ready"`, `v1.ConditionTrue = "True"`). -/
structure PodCondition where
  type : String
  status : String
  deriving DecidableEq, Repr

/-- `v1.PodStatus` restricted to the fields this provider ever writes.
The phase is a string (`v1.PodRunning = "Running"`). -/
structure PodStatus where
  podIP : String
  phase : String
  conditions : List PodCondition
  containerStatuses : List ContainerStatus
  deriving DecidableEq, Repr

/-- The zero value `v1.PodStatus\x7b\x7d`: all fields at their Go zero values. -/
def zeroPodStatus : PodStatus :=
  { podIP := "", phase := "", conditions := [], containerStatuses := [] }

/-- A pod record: identity metadata (`Namespace`, `Name`), annotations
(a Go `map[string]string`, modelled as an association list), desired
spec and observed status. -/
structure Pod where
  namespace_ : String
  name : String
  annots : List (String × String)
  spec : PodSpec
  status : PodStatus
  deriving DecidableEq, Repr

/-- Go map indexing `m[k]` on a `map[string]string`: the first binding
for `k`, or the zero value `""` when the key is absent. -/
def mapIndex (m : List (String × String)) (k : String) : String :=
  match m.find? (fun kv => kv.1 == k) with
  | some kv => kv.2
  | none => ""

/-- The provider state: the pod table plus the static configuration
fields of the Go `Provider` struct. -/
structure Provider where
  nodeName : String
  operatingSystem : String
  pods : List Pod
  deriving DecidableEq, Repr

/-- `NewProvider`: fresh provider with an empty (nil) pod slice. -/
def NewProvider (nodeName operatingSystem : String) : Provider :=
  { nodeName := nodeName, operatingSystem := operatingSystem, pods := [] }

/-- The identity `(namespace, name)` of a pod record. -/
def podIdentity (pod : Pod) : String × String :=
  (pod.namespace_, pod.name)

/-- The match test used by `GetPod`/`DeletePod`:
`podI.Name == name && podI.Namespace == namespace`. -/
def idMatch (namespace_ name : String) (podI : Pod) : Bool :=
  podI.name == name && podI.namespace_ == namespace_

/-- The `NotFound` error message built by `GetPod`. -/
def notFoundErr (namespace_ name : String) : String :=
  "Pod: \"" ++ name ++ "\" in namespace \"" ++ namespace_ ++ "\" not found"

/-- The `AlreadyExists` error message built by `CreatePod`. -/
def existErr (namespace_ name : String) : String :=
  "Pod: \"" ++ name ++ "\" in namespace \"" ++ namespace_ ++ "\" exist"

/-- `GetPod`: scan the slice for the first record whose name and
namespace both match; return it, or `(nil, NotFound)`. -/
def GetPod (p : Provider) (namespace_ name : String) :
    Option Pod × Option String :=
  match p.pods.find? (idMatch namespace_ name) with
  | some podI => (some podI, none)
  | none => (none, some (notFoundErr namespace_ name))

/-- The container status `CreatePod` synthesizes for a declared
container: running since `t`, ready, restart count 0. -/
def mkContainerStatus (t : Nat) (c : Container) : ContainerStatus :=
  { name := c.name
    state := { running := some t }
    ready := true
    restartCount := 0 }

/-- The pod status `CreatePod` synthesizes: pod IP from the
`vk/PodIP` annotation, phase `Running`, a single true `Ready`
condition, and one container status per declared container. -/
def synthStatus (t : Nat) (pod : Pod) : PodStatus :=
  { podIP := mapIndex pod.annots "vk/PodIP"
    phase := "Running"
    conditions := [{ type := "Ready", status := "True" }]
    containerStatuses := pod.spec.containers.map (mkContainerStatus t) }

/-- `CreatePod`: fail if `GetPod` reports no error for the incoming
pod's identity; otherwise overwrite the pod's status with the
synthesized one and append the record to the slice. Returns the new
provider state and the error (Go mutates the receiver in place). -/
def CreatePod (p : Provider) (t : Nat) (pod : Pod) :
    Provider × Option String :=
  match (GetPod p pod.namespace_ pod.name).2 with
  | none => (p, some (existErr pod.namespace_ pod.name))
  | some _ =>
    ({ p with pods := p.pods ++ [{ pod with status := synthStatus t pod }] },
     none)

/-- `UpdatePod`: explicit no-op, always succeeds. -/
def UpdatePod (p : Provider) (pod : Pod) : Provider × Option String :=
  (p, none)

/-- The in-place removal `append(pods[:index], pods[index+1:]...)` at
the first matching index (the loop breaks after the first hit):
drop the first record matching the identity, keep everything else. -/
def removeFirst (namespace_ name : String) : List Pod → List Pod
  | [] => []
  | podI :: rest =>
    if idMatch namespace_ name podI then rest
    else podI :: removeFirst namespace_ name rest

/-- `DeletePod`: scan for the first record matching the argument pod's
identity and remove it; always returns success. -/
def DeletePod (p : Provider) (pod : Pod) : Provider × Option String :=
  ({ p with pods := removeFirst pod.namespace_ pod.name p.pods }, none)

/-- `GetPodStatus`: `GetPod`, then on error return a pointer to a
zero-valued status together with that error, else project the found
pod's status. -/
def GetPodStatus (p : Provider) (namespace_ name : String) :
    Option PodStatus × Option String :=
  match GetPod p namespace_ name with
  | (_, some e) => (some zeroPodStatus, some e)
  | (some pod, none) => (some pod.status, none)
  | (none, none) => (none, none)

/-- `GetPods` (the List operation): returns the whole slice, no error. -/
def GetPods (p : Provider) : List Pod × Option String :=
  (p.pods, none)

/-- `Capacity`: the fixed resource list. `resource.MustParse` is
modelled by keeping the literal quantity strings. -/
def Capacity (p : Provider) : List (String × String) :=
  [("cpu", "20"), ("memory", "100Gi"), ("pods", "20")]

/-- `v1.NodeCondition` restricted to the fields the provider sets. -/
structure NodeCondition where
  type : String
  status : String
  lastHeartbeatTime : Nat
  lastTransitionTime : Nat
  reason : String
  message : String
  deriving DecidableEq, Repr

/-- `NodeConditions`: the fixed five-condition list, with both
timestamps set to the time `t` of the call. -/
def NodeConditions (p : Provider) (t : Nat) : List NodeCondition :=
  [{ type := "Ready", status := "True",
     lastHeartbeatTime := t, lastTransitionTime := t,
     reason := "KubeletReady", message := "kubelet is ready." },
   { type := "OutOfDisk", status := "False",
     lastHeartbeatTime := t, lastTransitionTime := t,
     reason := "KubeletHasSufficientDisk",
     message := "kubelet has sufficient disk space available" },
   { type := "MemoryPressure", status := "False",
     lastHeartbeatTime := t, lastTransitionTime := t,
     reason := "KubeletHasSufficientMemory",
     message := "kubelet has sufficient memory available" },
   { type := "DiskPressure", status := "False",
     lastHeartbeatTime := t, lastTransitionTime := t,
     reason := "KubeletHasNoDiskPressure",
     message := "kubelet has no disk pressure" },
   { type := "NetworkUnavailable", status := "False",
     lastHeartbeatTime := t, lastTransitionTime := t,
     reason := "RouteCreated",
     message := "RouteController created a route" }]

/-- A lifecycle operation against the registry, as invoked by the
node agent: create (with its operation time), update, or delete. -/
inductive Op where
  | create (t : Nat) (pod : Pod)
  | update (pod : Pod)
  | delete (pod : Pod)
  deriving DecidableEq, Repr

/-- The state transition of a single lifecycle operation. -/
def applyOp (p : Provider) : Op → Provider
  | .create t pod => (CreatePod p t pod).1
  | .update pod => (UpdatePod p pod).1
  | .delete pod => (DeletePod p pod).1

/-- Run a sequence of lifecycle operations from a starting state. -/
def runOps (p : Provider) (ops : List Op) : Provider :=
  ops.foldl applyOp p

/-! ### Example fixtures used by witnesses -/

/-- A concrete pod spec: `default/web`, one `nginx` container, with a
`vk/PodIP` annotation. -/
def podWeb : Pod :=
  { namespace_ := "default"
    name := "web"
    annots := [("vk/PodIP", "10.0.0.7")]
    spec := { containers := [{ name := "nginx" }] }
    status := zeroPodStatus }

/-- A provider on which `podWeb` has been created at time 5. -/
def provWeb : Provider :=
  (CreatePod (NewProvider "node1" "Linux") 5 podWeb).1

/-! ### Basic lemmas about the lookup and the branches of each
operation -/

theorem idMatch_eq_true_iff (namespace_ name : String) (x : Pod) :
    idMatch namespace_ name x = true ↔
      x.name = name ∧ x.namespace_ = namespace_ := by
  simp [idMatch]

theorem getPod_eq_of_find_some {p : Provider} {namespace_ name : String}
    {q : Pod} (h : p.pods.find? (idMatch namespace_ name) = some q) :
    GetPod p namespace_ name = (some q, none) := by
  unfold GetPod
  rw [h]

theorem getPod_eq_of_find_none {p : Provider} {namespace_ name : String}
    (h : p.pods.find? (idMatch namespace_ name) = none) :
    GetPod p namespace_ name = (none, some (notFoundErr namespace_ name)) := by
  unfold GetPod
  rw [h]

theorem getPod_fst_none_iff (p : Provider) (namespace_ name : String) :
    (GetPod p namespace_ name).1 = none ↔
      p.pods.find? (idMatch namespace_ name) = none := by
  cases h : p.pods.find? (idMatch namespace_ name) with
  | none => simp [getPod_eq_of_find_none h]
  | some q => simp [getPod_eq_of_find_some h]

theorem createPod_of_present {p : Provider} {t : Nat} {pod : Pod} {q : Pod}
    (h : p.pods.find? (idMatch pod.namespace_ pod.name) = some q) :
    CreatePod p t pod = (p, some (existErr pod.namespace_ pod.name)) := by
  unfold CreatePod
  rw [getPod_eq_of_find_some h]

theorem createPod_of_absent {p : Provider} {t : Nat} {pod : Pod}
    (h : p.pods.find? (idMatch pod.namespace_ pod.name) = none) :
    CreatePod p t pod =
      ({ p with pods := p.pods ++ [{ pod with status := synthStatus t pod }] },
       none) := by
  unfold CreatePod
  rw [getPod_eq_of_find_none h]

theorem idMatch_self (t : Nat) (pod : Pod) :
    idMatch pod.namespace_ pod.name { pod with status := synthStatus t pod }
      = true := by
  simp [idMatch]

theorem getPod_after_create {p : Provider} {t : Nat} {pod : Pod}
    (h : p.pods.find? (idMatch pod.namespace_ pod.name) = none) :
    (GetPod (CreatePod p t pod).1 pod.namespace_ pod.name).1 =
      some { pod with status := synthStatus t pod } := by
  have hfind :
      (p.pods ++ [{ pod with status := synthStatus t pod }]).find?
        (idMatch pod.namespace_ pod.name)
        = some { pod with status := synthStatus t pod } := by
    rw [List.find?_append, h]
    simp [idMatch_self]
  rw [createPod_of_absent h]
  exact congrArg Prod.fst
    (@getPod_eq_of_find_some
      { p with pods := p.pods ++ [{ pod with status := synthStatus t pod }] }
      pod.namespace_ pod.name { pod with status := synthStatus t pod } hfind)

/-! ### Lemmas about `removeFirst` -/

theorem removeFirst_sublist (namespace_ name : String) (l : List Pod) :
    List.Sublist (removeFirst namespace_ name l) l := by
  induction l with
  | nil => exact List.Sublist.refl _
  | cons a rest ih =>
    by_cases h : idMatch namespace_ name a
    · simpa [removeFirst, h] using List.sublist_cons_self a rest
    · simpa [removeFirst, h] using ih.cons₂ a

theorem removeFirst_eq_filter (namespace_ name : String) (l : List Pod)
    (h : (l.map podIdentity).Nodup) :
    removeFirst namespace_ name l =
      l.filter (fun x => !idMatch namespace_ name x) := by
  induction l with
  | nil => rfl
  | cons a rest ih =>
    rw [List.map_cons, List.nodup_cons] at h
    by_cases ha : idMatch namespace_ name a
    · rw [show removeFirst namespace_ name (a :: rest) = rest by
        simp [removeFirst, ha]]
      rw [List.filter_cons_of_neg (by simp [ha])]
      symm
      rw [List.filter_eq_self]
      intro b hb
      cases hbm : idMatch namespace_ name b with
      | false => simp
      | true =>
        exfalso
        rcases (idMatch_eq_true_iff namespace_ name b).1 hbm with ⟨hb1, hb2⟩
        rcases (idMatch_eq_true_iff namespace_ name a).1 ha with ⟨ha1, ha2⟩
        exact h.1 (List.mem_map.2 ⟨b, hb, by
          simp [podIdentity, hb1, hb2, ha1, ha2]⟩)
    · rw [show removeFirst namespace_ name (a :: rest)
          = a :: removeFirst namespace_ name rest by simp [removeFirst, ha]]
      rw [List.filter_cons_of_pos (by simp [ha]), ih h.2]

/-! ### The uniqueness invariant and its preservation -/

/-- The identity-uniqueness invariant on a pod table. -/
def IdUnique (l : List Pod) : Prop :=
  (l.map podIdentity).Nodup

instance (l : List Pod) : Decidable (IdUnique l) := by
  unfold IdUnique
  infer_instance

theorem countP_le_one_of_idUnique {l : List Pod} (namespace_ name : String)
    (h : IdUnique l) :
    l.countP (idMatch namespace_ name) ≤ 1 := by
  rw [List.countP_eq_length_filter]
  have hsub : List.Sublist (l.filter (idMatch namespace_ name)) l :=
    List.filter_sublist l
  have hnd : ((l.filter (idMatch namespace_ name)).map podIdentity).Nodup :=
    List.Nodup.sublist (hsub.map podIdentity) h
  have hall : ∀ y ∈ (l.filter (idMatch namespace_ name)).map podIdentity,
      y = (namespace_, name) := by
    intro y hy
    rcases List.mem_map.1 hy with ⟨x, hx, rfl⟩
    rcases (idMatch_eq_true_iff namespace_ name x).1
      (List.mem_filter.1 hx).2 with ⟨h1, h2⟩
    simp [podIdentity, h1, h2]
  have hrep := List.eq_replicate_of_mem hall
  rw [hrep] at hnd
  have := List.nodup_replicate.1 hnd
  simpa using this

theorem idUnique_createPod {p : Provider} (t : Nat) (pod : Pod)
    (h : IdUnique p.pods) : IdUnique (CreatePod p t pod).1.pods := by
  cases hf : p.pods.find? (idMatch pod.namespace_ pod.name) with
  | some q => rw [createPod_of_present hf]; exact h
  | none =>
    rw [createPod_of_absent hf]
    show ((p.pods ++ [_]).map podIdentity).Nodup
    rw [List.map_append, List.nodup_append]
    refine ⟨h, by simp, ?_⟩
    intro a ha hb
    simp only [List.map_cons, List.map_nil, List.mem_singleton] at hb
    rcases List.mem_map.1 ha with ⟨x, hx, rfl⟩
    have hmatch := List.find?_eq_none.1 hf x hx
    apply hmatch
    rw [idMatch_eq_true_iff]
    have : podIdentity x = (pod.namespace_, pod.name) := by
      rw [hb]; rfl
    exact ⟨congrArg Prod.snd this, congrArg Prod.fst this⟩

theorem idUnique_applyOp {p : Provider} (op : Op)
    (h : IdUnique p.pods) : IdUnique (applyOp p op).pods := by
  cases op with
  | create t pod => exact idUnique_createPod t pod h
  | update pod => exact h
  | delete pod =>
    have hs := (removeFirst_sublist pod.namespace_ pod.name p.pods).map
      podIdentity
    exact List.Nodup.sublist hs h

theorem idUnique_runOps (p : Provider) (ops : List Op)
    (h : IdUnique p.pods) : IdUnique (runOps p ops).pods := by
  induction ops generalizing p with
  | nil => exact h
  | cons op rest ih => exact ih _ (idUnique_applyOp op h)

/-! ### Claim theorems -/

/-- C1: starting from an empty registry, after any sequence of Create,
Update and Delete operations, the registry — and hence List()'s output —
holds at most one live record for any given `(namespace, name)`
identity. -/
theorem lifecycle_at_most_one_record_per_identity
    (nodeName os : String) (ops : List Op) (namespace_ name : String) :
    IdUnique (GetPods (runOps (NewProvider nodeName os) ops)).1 ∧
    (GetPods (runOps (NewProvider nodeName os) ops)).1.countP
      (idMatch namespace_ name) ≤ 1 := by
  have h : IdUnique (runOps (NewProvider nodeName os) ops).pods :=
    idUnique_runOps _ ops (by simp [NewProvider, IdUnique])
  exact ⟨h, countP_le_one_of_idUnique _ _ h⟩

/-- C2: when a live record with the incoming pod's identity already
exists (in a table satisfying the uniqueness invariant), CreatePod
fails with the AlreadyExists error and leaves the table unchanged,
still holding exactly one record for that identity. -/
theorem createPod_duplicate_rejected (p : Provider) (t : Nat) (pod : Pod)
    (hinv : IdUnique p.pods)
    (hdup : ∃ q ∈ p.pods, q.name = pod.name ∧ q.namespace_ = pod.namespace_) :
    (CreatePod p t pod).2 = some (existErr pod.namespace_ pod.name) ∧
    (CreatePod p t pod).1 = p ∧
    (CreatePod p t pod).1.pods.countP (idMatch pod.namespace_ pod.name)
      = 1 := by
  have hfind : (p.pods.find? (idMatch pod.namespace_ pod.name)).isSome := by
    rw [List.find?_isSome]
    rcases hdup with ⟨q, hq, h1, h2⟩
    exact ⟨q, hq, (idMatch_eq_true_iff _ _ q).2 ⟨h1, h2⟩⟩
  rcases Option.isSome_iff_exists.1 hfind with ⟨q, hq⟩
  have hc := @createPod_of_present p t pod q hq
  refine ⟨by rw [hc], by rw [hc], ?_⟩
  rw [hc]
  show p.pods.countP (idMatch pod.namespace_ pod.name) = 1
  have hle := countP_le_one_of_idUnique pod.namespace_ pod.name hinv
  have hge : 0 < p.pods.countP (idMatch pod.namespace_ pod.name) :=
    List.countP_pos_iff.2 ⟨q, List.mem_of_find?_eq_some hq,
      List.find?_some hq⟩
  omega

/-- C2 witness: creating `default/web` twice fails the second time and
leaves the table as it was. -/
theorem createPod_duplicate_rejected_witness :
    IdUnique provWeb.pods ∧
    (CreatePod provWeb 9 podWeb).2 = some (existErr "default" "web") ∧
    (CreatePod provWeb 9 podWeb).1 = provWeb := by
  have h := createPod_duplicate_rejected provWeb 9 podWeb (by decide)
    (by decide)
  exact ⟨by decide, h.1, h.2.1⟩

/-- C3: creating a pod whose identity is absent succeeds, and a
subsequent GetPod returns a record with phase Running, a single true
Ready condition, and one running/ready container status per declared
container, in order, with restart count 0. -/
theorem createPod_then_getPod (p : Provider) (t : Nat) (pod : Pod)
    (habs : (GetPod p pod.namespace_ pod.name).1 = none) :
    (CreatePod p t pod).2 = none ∧
    ∃ q, (GetPod (CreatePod p t pod).1 pod.namespace_ pod.name).1 = some q ∧
      q.status.phase = "Running" ∧
      q.status.conditions = [{ type := "Ready", status := "True" }] ∧
      q.status.containerStatuses = pod.spec.containers.map (fun c =>
        { name := c.name
          state := { running := some t }
          ready := true
          restartCount := 0 }) := by
  have hf := (getPod_fst_none_iff p pod.namespace_ pod.name).1 habs
  exact ⟨by rw [createPod_of_absent hf],
    ⟨{ pod with status := synthStatus t pod }, getPod_after_create hf,
      rfl, rfl, rfl⟩⟩

/-- C3 witness: the create-then-get round trip on `default/web`. -/
theorem createPod_then_getPod_witness :
    (GetPod (NewProvider "node1" "Linux") podWeb.namespace_ podWeb.name).1
      = none ∧
    (CreatePod (NewProvider "node1" "Linux") 5 podWeb).2 = none :=
  ⟨by decide,
    (createPod_then_getPod (NewProvider "node1" "Linux") 5 podWeb
      (by decide)).1⟩

/-- C4: DeletePod always succeeds; on a table satisfying the
uniqueness invariant it removes exactly the records matching the
argument's identity (at most one) and keeps every other record, and on
an absent identity it leaves the provider unchanged. -/
theorem deletePod_success_removes_exactly_match (p : Provider) (pod : Pod)
    (hinv : IdUnique p.pods) :
    (DeletePod p pod).2 = none ∧
    (DeletePod p pod).1.pods =
      p.pods.filter (fun x => !idMatch pod.namespace_ pod.name x) ∧
    ((GetPod p pod.namespace_ pod.name).1 = none → (DeletePod p pod).1 = p) := by
  refine ⟨rfl, removeFirst_eq_filter _ _ _ hinv, ?_⟩
  intro habs
  have hf := (getPod_fst_none_iff p _ _).1 habs
  have hnone := List.find?_eq_none.1 hf
  show ({ p with pods := removeFirst pod.namespace_ pod.name p.pods }
      : Provider) = p
  have hsame : removeFirst pod.namespace_ pod.name p.pods = p.pods := by
    rw [removeFirst_eq_filter _ _ _ hinv, List.filter_eq_self]
    intro a ha
    cases hm : idMatch pod.namespace_ pod.name a with
    | false => simp
    | true => exact absurd hm (hnone a ha)
  rw [hsame]

/-- C4 witness: deleting `default/web` from a one-record table empties
it, without error. -/
theorem deletePod_success_removes_exactly_match_witness :
    IdUnique provWeb.pods ∧ (DeletePod provWeb podWeb).2 = none ∧
    (DeletePod provWeb podWeb).1.pods = [] := by
  have h := deletePod_success_removes_exactly_match provWeb podWeb (by decide)
  refine ⟨by decide, h.1, ?_⟩
  rw [h.2.1]
  decide

/-- C5: UpdatePod always succeeds and is an exact no-op on the
registry state, so any subsequent lookup sees the pre-update table. -/
theorem updatePod_noop (p : Provider) (pod : Pod) :
    (UpdatePod p pod).2 = none ∧
    (UpdatePod p pod).1 = p ∧
    ∀ ns nm, GetPod (UpdatePod p pod).1 ns nm = GetPod p ns nm :=
  ⟨rfl, rfl, fun _ _ => rfl⟩

/-- C6: GetPod fails with the NotFound error exactly when no live
record with the identity exists, and when a matching record does exist
it returns, without error, a matching stored record; GetPodStatus
fails under exactly the same condition and otherwise projects the
status of the record GetPod returns. -/
theorem getPod_getPodStatus_notFound (p : Provider)
    (namespace_ name : String) :
    ((GetPod p namespace_ name).2 = some (notFoundErr namespace_ name) ↔
      ¬ ∃ x ∈ p.pods, x.name = name ∧ x.namespace_ = namespace_) ∧
    (∀ q, (GetPod p namespace_ name).1 = some q →
      q ∈ p.pods ∧ q.name = name ∧ q.namespace_ = namespace_) ∧
    (GetPodStatus p namespace_ name).2 = (GetPod p namespace_ name).2 ∧
    (∀ q, (GetPod p namespace_ name).1 = some q →
      (GetPodStatus p namespace_ name).1 = some q.status) ∧
    ((∃ x ∈ p.pods, x.name = name ∧ x.namespace_ = namespace_) →
      ∃ q, (GetPod p namespace_ name).1 = some q ∧ q ∈ p.pods ∧
        q.name = name ∧ q.namespace_ = namespace_ ∧
        (GetPod p namespace_ name).2 = none ∧
        (GetPodStatus p namespace_ name).1 = some q.status) := by
  cases hfind : p.pods.find? (idMatch namespace_ name) with
  | some q =>
    have hg := getPod_eq_of_find_some hfind
    have hqmem := List.mem_of_find?_eq_some hfind
    rcases (idMatch_eq_true_iff _ _ q).1 (List.find?_some hfind) with ⟨h1, h2⟩
    refine ⟨?_, ?_, ?_, ?_, ?_⟩
    · rw [hg]
      simp only [not_exists, not_and]
      constructor
      · intro hbad
        exact absurd hbad (by simp)
      · intro hno
        exact absurd (h2 ▸ hno q hqmem h1) (by simp)
    · intro r hr
      rw [hg] at hr
      simp only [Option.some.injEq] at hr
      rw [← hr]
      exact ⟨hqmem, h1, h2⟩
    · unfold GetPodStatus
      rw [hg]
    · intro r hr
      rw [hg] at hr
      simp only [Option.some.injEq] at hr
      unfold GetPodStatus
      rw [hg, hr]
    · intro _
      refine ⟨q, ?_, hqmem, h1, h2, ?_, ?_⟩
      · rw [hg]
      · rw [hg]
      · unfold GetPodStatus
        rw [hg]
  | none =>
    have hg := getPod_eq_of_find_none hfind
    have hnone := List.find?_eq_none.1 hfind
    refine ⟨?_, ?_, ?_, ?_, ?_⟩
    · rw [hg]
      simp only [true_iff, Option.some.injEq]
      rintro ⟨x, hx, hx1, hx2⟩
      exact hnone x hx ((idMatch_eq_true_iff _ _ x).2 ⟨hx1, hx2⟩)
    · intro r hr
      rw [hg] at hr
      exact absurd hr (by simp)
    · unfold GetPodStatus
      rw [hg]
    · intro r hr
      rw [hg] at hr
      exact absurd hr (by simp)
    · rintro ⟨x, hx, hx1, hx2⟩
      exact absurd ((idMatch_eq_true_iff _ _ x).2 ⟨hx1, hx2⟩) (hnone x hx)

/-- C6 witness: looking up an identity that is not in the table
reports NotFound with GetPodStatus reporting the same error, while
looking up the present identity `default/web` returns a matching
record without error and GetPodStatus projects its status. -/
theorem getPod_getPodStatus_notFound_witness :
    (GetPod provWeb "default" "missing").2
      = some (notFoundErr "default" "missing") ∧
    (GetPodStatus provWeb "default" "missing").2
      = (GetPod provWeb "default" "missing").2 ∧
    ∃ q, (GetPod provWeb "default" "web").1 = some q ∧ q ∈ provWeb.pods ∧
      q.name = "web" ∧ q.namespace_ = "default" ∧
      (GetPod provWeb "default" "web").2 = none ∧
      (GetPodStatus provWeb "default" "web").1 = some q.status := by
  have hmiss := getPod_getPodStatus_notFound provWeb "default" "missing"
  have hhit := getPod_getPodStatus_notFound provWeb "default" "web"
  exact ⟨hmiss.1.2 (by decide), hmiss.2.2.1, hhit.2.2.2.2 (by decide)⟩

/-- C7: a successful create copies the record's pod IP from the
incoming pod's `vk/PodIP` annotation, and the copied value is the
empty string when the key is absent; any annotation value is accepted
unvalidated. -/
theorem createPod_podIP_from_annot (p : Provider) (t : Nat) (pod : Pod)
    (habs : (GetPod p pod.namespace_ pod.name).1 = none) :
    (∃ q, (GetPod (CreatePod p t pod).1 pod.namespace_ pod.name).1 = some q ∧
      q.status.podIP = mapIndex pod.annots "vk/PodIP") ∧
    (pod.annots.find? (fun kv => kv.1 == "vk/PodIP") = none →
      mapIndex pod.annots "vk/PodIP" = "") := by
  have hf := (getPod_fst_none_iff p pod.namespace_ pod.name).1 habs
  refine ⟨⟨{ pod with status := synthStatus t pod },
    getPod_after_create hf, rfl⟩, ?_⟩
  intro h
  unfold mapIndex
  rw [h]

/-- C7 witness: `default/web` carries `vk/PodIP = 10.0.0.7` and the
created record's status holds exactly that IP. -/
theorem createPod_podIP_from_annot_witness :
    (GetPod (NewProvider "node2" "Linux") podWeb.namespace_ podWeb.name).1
      = none ∧
    mapIndex podWeb.annots "vk/PodIP" = "10.0.0.7" ∧
    ∃ q, (GetPod (CreatePod (NewProvider "node2" "Linux") 3 podWeb).1
      podWeb.namespace_ podWeb.name).1 = some q ∧
      q.status.podIP = mapIndex podWeb.annots "vk/PodIP" :=
  ⟨by decide, by decide,
    (createPod_podIP_from_annot (NewProvider "node2" "Linux") 3 podWeb
      (by decide)).1⟩

/-- C8: Capacity and NodeConditions are unaffected by any sequence of
lifecycle operations; Capacity is the fixed cpu/memory/pods triple and
NodeConditions is the fixed five-condition list whose reason/message
content is constant and whose two timestamps are the call time. -/
theorem capacity_nodeConditions_fixed (p : Provider) (ops : List Op)
    (t : Nat) :
    Capacity (runOps p ops) = Capacity p ∧
    Capacity p = [("cpu", "20"), ("memory", "100Gi"), ("pods", "20")] ∧
    NodeConditions (runOps p ops) t = NodeConditions p t ∧
    (NodeConditions p t).map (fun c => (c.type, c.status, c.reason, c.message))
      = [("Ready", "True", "KubeletReady", "kubelet is ready."),
         ("OutOfDisk", "False", "KubeletHasSufficientDisk",
          "kubelet has sufficient disk space available"),
         ("MemoryPressure", "False", "KubeletHasSufficientMemory",
          "kubelet has sufficient memory available"),
         ("DiskPressure", "False", "KubeletHasNoDiskPressure",
          "kubelet has no disk pressure"),
         ("NetworkUnavailable", "False", "RouteCreated",
          "RouteController created a route")] ∧
    (NodeConditions p t).map
        (fun c => (c.lastHeartbeatTime, c.lastTransitionTime))
      = List.replicate 5 (t, t) :=
  ⟨rfl, rfl, rfl, rfl, rfl⟩

/-- C10: when the identity is absent, GetPodStatus returns a non-nil
pointer to the zero-valued pod status together with the NotFound
error. -/
theorem getPodStatus_notFound_zero_status (p : Provider)
    (namespace_ name : String)
    (h : (GetPod p namespace_ name).1 = none) :
    (GetPodStatus p namespace_ name).1 = some zeroPodStatus ∧
    (GetPodStatus p namespace_ name).2
      = some (notFoundErr namespace_ name) ∧
    (GetPodStatus p namespace_ name).1 ≠ none := by
  have hf := (getPod_fst_none_iff p _ _).1 h
  have hg := getPod_eq_of_find_none hf
  unfold GetPodStatus
  rw [hg]
  exact ⟨rfl, rfl, by simp⟩

/-- C10 witness: GetPodStatus on an empty registry returns the
zero-valued status, not nil. -/
theorem getPodStatus_notFound_zero_status_witness :
    (GetPod (NewProvider "node1" "Linux") "default" "web").1 = none ∧
    (GetPodStatus (NewProvider "node1" "Linux") "default" "web").1
      = some zeroPodStatus := by
  have h := getPodStatus_notFound_zero_status (NewProvider "node1" "Linux")
    "default" "web" (by decide)
  exact ⟨by decide, h.1⟩

end Bareinfra
